import Mathlib

/-!
Shallow embedding of the ssh-cf-plugin compliance provider (src/main.go) and
verification of its specification claims.

The program is a single-file Go plugin with three functions of interest:
`Evaluate` (identity discovery), `Execute` (check execution) and `RunCommand`
(the remote executor).  External effects are made explicit parameters:

* `yaml.Unmarshal` is an opaque decoder `decode : String → Except String SSHConfig`
  (the yaml library is outside the repository);
* the ssh library (`ssh.Dial`, `client.NewSession`, `session.CombinedOutput`)
  is an `SSHWorld` record describing what each call returns in a given run,
  with `dial` keyed by the address string actually dialled;
* `time.Now()` is a clock `clock : Nat → Nat` read at successive indices, one
  per textual call site in execution order (timestamps are abstract instants;
  RFC3339 formatting is dropped since claims only compare timestamps);
* `time.AddDate(0, 1, 0)` ("add one month") is `addOneMonth : Nat → Nat`;
* `uuid.New().String()` is `uuid : Nat → String` read at successive indices.
-/

/-- Go struct `SSHConfig` (main.go lines 20-26), fields in source order. -/
structure SSHConfig where
  username : String
  password : String
  host : String
  command : String
  port : String
  deriving DecidableEq, Repr

/-- The host-supplied `input.Configuration`, a `map[string]string`, modelled
as an association list. -/
def Configuration := List (String × String)

/-- Go map indexing with the comma-ok idiom: `v, ok := m["k"]` yields the zero
value `""` and `false` when the key is absent. -/
def mapIndex (m : Configuration) (k : String) : String × Bool :=
  match m.find? (fun kv => kv.1 == k) with
  | some kv => (kv.2, true)
  | none => ("", false)

/-- `SubjectType_INVENTORY_ITEM` is the only subject type the program uses. -/
inductive SubjectType where
  | INVENTORY_ITEM
  deriving DecidableEq, Repr

/-- Provider `Subject` as populated by `Evaluate` (main.go lines 53-60):
`Id`, `Type`, `Title`, `Props`. -/
structure Subject where
  id : String
  subjectType : SubjectType
  title : String
  props : List (String × String)
  deriving DecidableEq, Repr

/-- Provider `EvaluateResult`: the `Subjects` slice. -/
structure EvaluateResult where
  subjects : List Subject
  deriving DecidableEq, Repr

/-- `Evaluate` (main.go lines 28-66).  Mirrors the source order exactly: the
yaml value is decoded BEFORE the comma-ok flag is checked.  Go errors are the
literal `fmt.Errorf` strings. -/
def Evaluate (decode : String → Except String SSHConfig)
    (conf : Configuration) : Except String EvaluateResult :=
  let yamlString := (mapIndex conf "yaml").1
  let ok := (mapIndex conf "yaml").2
  match decode yamlString with
  | .error e => .error ("Error unmarshalling YAML: " ++ e ++ "\n")
  | .ok ssh_config =>
    if ok = false then .error "yaml parameter is missing"
    else
      let username := ssh_config.username
      let host := ssh_config.host
      let command := ssh_config.command
      let port := if ssh_config.port = "" then "22" else ssh_config.port
      let ssh_target_id := username ++ "@" ++ host ++ ":" ++ port ++ " " ++ command
      .ok { subjects := [{ id := ssh_target_id,
                           subjectType := .INVENTORY_ITEM,
                           title := "SSH target ssh " ++ ssh_target_id,
                           props := [("id", ssh_target_id)] }] }

/-- Result of `session.CombinedOutput` (main.go line 205): an `*ssh.ExitError`
carrying the remote exit status (output still captured), some other error, or
success. -/
inductive CombinedOutputResult where
  | exitError (output : String) (status : Int)
  | otherError (msg : String)
  | ok (output : String)
  deriving DecidableEq, Repr

/-- The ssh/network environment of one run: what `ssh.Dial` returns for each
address string, whether `client.NewSession` fails, and what
`session.CombinedOutput` returns for each command string.  `some msg` means
the call fails with that error. -/
structure SSHWorld where
  dial : String → Option String
  newSession : Option String
  combinedOutput : String → CombinedOutputResult

/-- `RunCommand` (main.go lines 179-218).  Dials `config.Host:config.Port`
verbatim (no port defaulting here), returns an error for dial / session /
non-ExitError command failures, and returns the exit status with a nil error
when the remote process itself exits non-zero (`*ssh.ExitError`). -/
def RunCommand (world : SSHWorld) (config : SSHConfig) :
    Except String (String × Int) :=
  let address := config.host ++ ":" ++ config.port
  match world.dial address with
  | some e => .error ("failed to dial: " ++ e)
  | none =>
    match world.newSession with
    | some e => .error ("failed to create session: " ++ e)
    | none =>
      match world.combinedOutput config.command with
      | .exitError output status => .ok (output, status)
      | .otherError e => .error ("failed to execute command: " ++ e)
      | .ok output => .ok (output, 0)

/-- Provider `Property` (`Name`/`Value`). -/
structure Property where
  name : String
  value : String
  deriving DecidableEq, Repr

/-- Provider `Evidence` (`Description`). -/
structure Evidence where
  description : String
  deriving DecidableEq, Repr

/-- Provider `Observation` as populated by `Execute`.  `Links` is always the
empty slice, kept as `List Unit`.  `collected`/`expires` hold the clock
instants whose RFC3339 renderings the Go code stores. -/
structure Observation where
  id : String
  title : String
  description : String
  collected : Nat
  expires : Nat
  links : List Unit
  props : List Property
  relevantEvidence : List Evidence
  remarks : String
  deriving DecidableEq, Repr

/-- Provider `Finding` as populated by `Execute`. -/
structure Finding where
  id : String
  title : String
  description : String
  remarks : String
  relatedObservations : List String
  deriving DecidableEq, Repr

/-- Provider `LogEntry`; `stop` is the Go field `End`. -/
structure LogEntry where
  title : String
  description : String
  start : Nat
  stop : Nat
  deriving DecidableEq, Repr

/-- Provider execution status; the source only ever emits `SUCCESS`. -/
inductive ExecutionStatus where
  | SUCCESS
  | ERROR
  deriving DecidableEq, Repr

/-- Provider `ExecuteResult`. -/
structure ExecuteResult where
  status : ExecutionStatus
  observations : List Observation
  findings : List Finding
  logs : List LogEntry
  deriving DecidableEq, Repr

/-- How one call of `Execute` ends: `err` is a `return nil, fmt.Errorf(...)`
(an error value handed back to the host), `fatalExit` is `log.Fatalf`, which
terminates the whole process, and `result` is a normal `ExecuteResult`. -/
inductive ExecOutcome where
  | err (msg : String)
  | fatalExit (msg : String)
  | result (r : ExecuteResult)
  deriving Repr

/-- `Execute` (main.go lines 68-176).  Source order: `start_time` is sampled
first (clock 0); the comma-ok flag is checked BEFORE decoding; the port
default is applied to a local variable only, so `RunCommand` still receives
the raw `ssh_config`; on a `RunCommand` error the Go code calls `log.Fatalf`.
Clock call sites in order: 0 = `start_time`, 1 = `Collected`,
2 = the `time.Now()` inside `Expires`, 3 = the log entry `End`. -/
def Execute (decode : String → Except String SSHConfig) (world : SSHWorld)
    (clock : Nat → Nat) (addOneMonth : Nat → Nat) (uuid : Nat → String)
    (conf : Configuration) : ExecOutcome :=
  let start_time := clock 0
  let yamlString := (mapIndex conf "yaml").1
  let ok := (mapIndex conf "yaml").2
  if ok = false then .err "yaml parameter is missing"
  else
    match decode yamlString with
    | .error e => .err ("Error unmarshalling YAML: " ++ e ++ "\n")
    | .ok ssh_config =>
      let username := ssh_config.username
      let host := ssh_config.host
      let command := ssh_config.command
      let port := if ssh_config.port = "" then "22" else ssh_config.port
      let obs_id := uuid 0
      let ssh_target_command :=
        "ssh -p " ++ port ++ " " ++ username ++ "@" ++ host ++ " " ++ command
      match RunCommand world ssh_config with
      | .error e => .fatalExit ("Failed to run command: " ++ e)
      | .ok (output, exit_code) =>
        if exit_code ≠ 0 then
          let obs : Observation :=
            { id := obs_id
              title := "SSH Command Did Not Succeed"
              description := "The command: " ++ ssh_target_command ++ " did not succeed."
              collected := clock 1
              expires := addOneMonth (clock 2)
              links := []
              props := [{ name := "Command", value := ssh_target_command }]
              relevantEvidence :=
                [{ description := "The command returned an exit code of " ++
                     toString exit_code ++ " for the command: " ++ ssh_target_command }]
              remarks := "The command: '" ++ ssh_target_command ++
                "' should return a zero exit code." }
          let fndngs : Finding :=
            { id := uuid 1
              title := "SSH Command Failure"
              description := "The command " ++ ssh_target_command ++
                " did not succeed, and produced output: " ++ output ++ "."
              remarks := "Correct the command " ++ ssh_target_command ++ "."
              relatedObservations := [obs_id] }
          let logEntry : LogEntry :=
            { title := "SSH Command Check"
              description := "SSH command check has run successfully"
              start := start_time
              stop := clock 3 }
          .result { status := .SUCCESS, observations := [obs],
                    findings := [fndngs], logs := [logEntry] }
        else
          let obs : Observation :=
            { id := obs_id
              title := "SSH Command Succeeded"
              description := "The command: " ++ ssh_target_command ++ " succeeded."
              collected := clock 1
              expires := addOneMonth (clock 2)
              links := []
              props := [{ name := "Command", value := ssh_target_command }]
              relevantEvidence :=
                [{ description := "The command returned an exit code of " ++
                     toString exit_code ++ " for the command: " ++ ssh_target_command }]
              remarks := "All OK." }
          let logEntry : LogEntry :=
            { title := "SSH Command Check"
              description := "SSH command check has run successfully"
              start := start_time
              stop := clock 3 }
          .result { status := .SUCCESS, observations := [obs],
                    findings := [], logs := [logEntry] }

/-! ### Observers used to state the claims -/

/-- The subject ids returned by an `Evaluate` call (empty on error). -/
def subjectIds (r : Except String EvaluateResult) : List String :=
  match r with
  | .ok res => res.subjects.map (fun s => s.id)
  | .error _ => []

/-- Whether an `Evaluate` call failed (returned a non-nil error). -/
def evaluateFails (r : Except String EvaluateResult) : Bool :=
  match r with
  | .error _ => true
  | .ok _ => false

/-- The error string an `Evaluate` call returns, if any. -/
def evaluateErr (r : Except String EvaluateResult) : Option String :=
  match r with
  | .error e => some e
  | .ok _ => none

/-- The error value an `Execute` call returns to the host, if any.  The only
`return nil, err` paths in `Execute` are the two configuration checks;
`log.Fatalf` never returns, so it is not an error value. -/
def executeErr : ExecOutcome → Option String
  | .err e => some e
  | _ => none

/-- The observations of an `Execute` call's result (empty if no result). -/
def outcomeObservations : ExecOutcome → List Observation
  | .result r => r.observations
  | _ => []

/-- The findings of an `Execute` call's result (empty if no result). -/
def outcomeFindings : ExecOutcome → List Finding
  | .result r => r.findings
  | _ => []

/-- The status of an `Execute` call's result, if it produced one. -/
def outcomeStatus : ExecOutcome → Option ExecutionStatus
  | .result r => some r.status
  | _ => none

/-! ### Concrete fixtures for witnesses and counterexamples -/

/-- The spec's scenario configuration (spec section 8). -/
def cfgGood : SSHConfig :=
  { username := "svc", password := "pw", host := "10.0.0.5",
    command := "systemctl is-active nginx", port := "22" }

/-- The scenario configuration with the optional `port` field omitted. -/
def cfgNoPort : SSHConfig :=
  { username := "svc", password := "pw", host := "10.0.0.5",
    command := "systemctl is-active nginx", port := "" }

/-- A concrete decoder modelling `yaml.Unmarshal`: the empty document decodes
to the zero-valued struct (as yaml.v2 does), two tagged documents decode to
the scenario configs, and anything else is a parse error. -/
def decode0 : String → Except String SSHConfig := fun s =>
  if s = "good" then .ok cfgGood
  else if s = "noport" then .ok cfgNoPort
  else if s = "goodpw2" then .ok { cfgGood with password := "other" }
  else if s = "" then .ok { username := "", password := "", host := "",
                            command := "", port := "" }
  else .error "yaml: parse error"

/-- Configuration map carrying the scenario yaml. -/
def confGood : Configuration := [("yaml", "good")]

/-- Configuration map whose yaml omits the port. -/
def confNoPort : Configuration := [("yaml", "noport")]

/-- Configuration map whose yaml decodes with all fields empty. -/
def confEmpty : Configuration := [("yaml", "")]

/-- A run where dial, session and command all succeed with exit code 0. -/
def worldOk : SSHWorld :=
  { dial := fun _ => none, newSession := none,
    combinedOutput := fun _ => .ok "nginx active" }

/-- A run where the remote process exits with the given non-zero status. -/
def worldExit (status : Int) : SSHWorld :=
  { dial := fun _ => none, newSession := none,
    combinedOutput := fun _ => .exitError "out" status }

/-- A run where every dial attempt is refused. -/
def worldRefused : SSHWorld :=
  { dial := fun _ => some "connection refused", newSession := none,
    combinedOutput := fun _ => .ok "" }

/-- A run where dialling `10.0.0.5:22` succeeds but any other address is
refused. -/
def worldOnly22 : SSHWorld :=
  { dial := fun a => if a = "10.0.0.5:22" then none else some "connection refused",
    newSession := none,
    combinedOutput := fun _ => .ok "" }

/-- An advancing clock: each successive `time.Now()` reads a later instant. -/
def clockTick : Nat → Nat := fun i => i

/-- A stopped clock: every `time.Now()` reads the same instant. -/
def clockConst : Nat → Nat := fun _ => 5

/-- A concrete one-month offset on abstract instants. -/
def addMonth0 : Nat → Nat := fun t => t + 30

/-- A concrete uuid supply. -/
def uuid0 : Nat → String := fun i => "uuid-" ++ toString i

/-- First half of an id collision: username "a@b" on host "c". -/
def cfgAtA : SSHConfig :=
  { username := "a@b", password := "", host := "c", command := "run", port := "" }

/-- Second half of an id collision: username "a" on host "b@c". -/
def cfgAtB : SSHConfig :=
  { username := "a", password := "", host := "b@c", command := "run", port := "" }

/-- Decoder for the id-collision pair. -/
def decodeCollide : String → Except String SSHConfig := fun s =>
  if s = "A" then .ok cfgAtA
  else if s = "B" then .ok cfgAtB
  else .error "yaml: parse error"

/-! ### Helper lemmas -/

/-- When the comma-ok flag of a map index is `false`, the value read is the
zero value `""`. -/
theorem mapIndex_absent (conf : Configuration) (k : String) :
    (mapIndex conf k).2 = false → (mapIndex conf k).1 = "" := by
  unfold mapIndex
  cases conf.find? (fun kv => kv.1 == k) <;> simp

/-! ### Claims -/

/-- Claim C1: with the `port` field empty, the default "22" is applied to the
subject id built by `Evaluate` (and to the command string `Execute` prints),
but `RunCommand` receives the raw configuration and dials `host:` with the
EMPTY port: in a world where `10.0.0.5:22` accepts connections, the dial of
`10.0.0.5:` is refused and `Execute` aborts.  The default never reaches the
remote connection, contradicting the claim. -/
theorem execute_dials_raw_port_not_default :
    subjectIds (Evaluate decode0 confNoPort) =
      ["svc@10.0.0.5:22 systemctl is-active nginx"] ∧
    worldOnly22.dial "10.0.0.5:22" = none ∧
    RunCommand worldOnly22 cfgNoPort =
      .error "failed to dial: connection refused" ∧
    Execute decode0 worldOnly22 clockTick addMonth0 uuid0 confNoPort =
      .fatalExit "Failed to run command: failed to dial: connection refused" :=
  ⟨rfl, rfl, rfl, rfl⟩

/-- Claim C2: when the executor reports an error (here: connection refused at
dial time), `Execute` does not return an error value to the host — it hits
`log.Fatalf`, which terminates the process (`fatalExit`), so no error value is
returned (`executeErr = none`). -/
theorem execute_fatal_exit_on_dial_error :
    Execute decode0 worldRefused clockTick addMonth0 uuid0 confGood =
      .fatalExit "Failed to run command: failed to dial: connection refused" ∧
    executeErr (Execute decode0 worldRefused clockTick addMonth0 uuid0 confGood) =
      none :=
  ⟨rfl, rfl⟩

/-- Claim C3 counterexample: a present yaml value that decodes with empty
`username`, `host` and `command` (as `yaml.Unmarshal` of an empty document
does) is NOT rejected: `Evaluate` succeeds and `Execute` returns no config
error and completes with status SUCCESS. -/
theorem missing_required_fields_not_rejected :
    decode0 "" = .ok { username := "", password := "", host := "",
                       command := "", port := "" } ∧
    evaluateFails (Evaluate decode0 confEmpty) = false ∧
    executeErr (Execute decode0 worldOk clockTick addMonth0 uuid0 confEmpty) =
      none ∧
    outcomeStatus (Execute decode0 worldOk clockTick addMonth0 uuid0 confEmpty) =
      some .SUCCESS :=
  ⟨rfl, rfl, rfl, rfl⟩

/-- Claim C10: the subject id is built by plain interpolation
`user@host:port command`, so two distinct configurations (username "a@b" on
host "c" versus username "a" on host "b@c") collide on the same id. -/
theorem subject_id_not_injective :
    cfgAtA ≠ cfgAtB ∧
    subjectIds (Evaluate decodeCollide [("yaml", "A")]) =
      subjectIds (Evaluate decodeCollide [("yaml", "B")]) ∧
    subjectIds (Evaluate decodeCollide [("yaml", "A")]) = ["a@b@c:22 run"] :=
  ⟨by decide, rfl, rfl⟩

/-- Claim C3 amended: `Evaluate` and `Execute` fail with a configuration
error only when the "yaml" key is absent or the blob fails to decode; a blob
that decodes is accepted regardless of whether `username`, `host` or
`command` are empty. -/
theorem config_error_only_for_missing_or_malformed_yaml
    (decode : String → Except String SSHConfig) (world : SSHWorld)
    (clock addOneMonth : Nat → Nat) (uuid : Nat → String)
    (conf : Configuration) (val : String) (cfg : SSHConfig)
    (hmap : mapIndex conf "yaml" = (val, true))
    (hdec : decode val = .ok cfg) :
    evaluateFails (Evaluate decode conf) = false ∧
    executeErr (Execute decode world clock addOneMonth uuid conf) = none := by
  constructor
  · simp [Evaluate, hmap, hdec, evaluateFails]
  · simp only [Execute, hmap, hdec]
    cases hrc : RunCommand world cfg with
    | error e => simp [executeErr]
    | ok p =>
      obtain ⟨output, code⟩ := p
      by_cases hc : code ≠ 0 <;> simp [hc, executeErr]

/-- Witness for C3's amended claim at a blob decoding to all-empty fields. -/
theorem config_error_only_for_missing_or_malformed_yaml_witness :
    evaluateFails (Evaluate decode0 confEmpty) = false ∧
    executeErr (Execute decode0 worldOk clockTick addMonth0 uuid0 confEmpty) =
      none :=
  config_error_only_for_missing_or_malformed_yaml decode0 worldOk clockTick
    addMonth0 uuid0 confEmpty ""
    { username := "", password := "", host := "", command := "", port := "" }
    rfl rfl

/-- Claim C4: whenever the remote command completes with a non-zero exit
code, `Execute` returns exactly one observation titled
"SSH Command Did Not Succeed", exactly one finding titled
"SSH Command Failure" whose related-observations list is exactly the
observation's id, and status SUCCESS. -/
theorem execute_nonzero_exit_shape
    (decode : String → Except String SSHConfig) (world : SSHWorld)
    (clock addOneMonth : Nat → Nat) (uuid : Nat → String)
    (conf : Configuration) (val : String) (cfg : SSHConfig)
    (output : String) (code : Int)
    (hmap : mapIndex conf "yaml" = (val, true))
    (hdec : decode val = .ok cfg)
    (hrun : RunCommand world cfg = .ok (output, code))
    (hcode : code ≠ 0) :
    (outcomeObservations (Execute decode world clock addOneMonth uuid conf)).map
        (fun o => o.title) = ["SSH Command Did Not Succeed"] ∧
    (outcomeFindings (Execute decode world clock addOneMonth uuid conf)).map
        (fun f => f.title) = ["SSH Command Failure"] ∧
    (outcomeFindings (Execute decode world clock addOneMonth uuid conf)).map
        (fun f => f.relatedObservations) =
      [(outcomeObservations (Execute decode world clock addOneMonth uuid conf)).map
        (fun o => o.id)] ∧
    outcomeStatus (Execute decode world clock addOneMonth uuid conf) =
      some .SUCCESS := by
  simp only [Execute, hmap, hdec, hrun]
  simp [hcode, outcomeObservations, outcomeFindings, outcomeStatus]

/-- Witness for C4 at the spec's scenario with remote exit code 3. -/
theorem execute_nonzero_exit_shape_witness :
    (outcomeObservations (Execute decode0 (worldExit 3) clockTick addMonth0
        uuid0 confGood)).map (fun o => o.title) =
      ["SSH Command Did Not Succeed"] ∧
    (outcomeFindings (Execute decode0 (worldExit 3) clockTick addMonth0
        uuid0 confGood)).map (fun f => f.title) = ["SSH Command Failure"] ∧
    (outcomeFindings (Execute decode0 (worldExit 3) clockTick addMonth0
        uuid0 confGood)).map (fun f => f.relatedObservations) =
      [(outcomeObservations (Execute decode0 (worldExit 3) clockTick addMonth0
        uuid0 confGood)).map (fun o => o.id)] ∧
    outcomeStatus (Execute decode0 (worldExit 3) clockTick addMonth0
        uuid0 confGood) = some .SUCCESS :=
  execute_nonzero_exit_shape decode0 (worldExit 3) clockTick addMonth0 uuid0
    confGood "good" cfgGood "out" 3 rfl rfl rfl (by decide)

/-- Claim C5 counterexample: on the success branch the observation's remarks
are the literal "All OK." (with a trailing period), which is not the string
"All OK" the claim states. -/
theorem success_remarks_have_trailing_period :
    (outcomeObservations (Execute decode0 worldOk clockTick addMonth0 uuid0
        confGood)).map (fun o => o.remarks) = ["All OK."] ∧
    ("All OK." : String) ≠ "All OK" :=
  ⟨rfl, by decide⟩

/-- Claim C5 amended: whenever the remote command completes with exit code 0,
`Execute` returns exactly one observation titled "SSH Command Succeeded" with
remarks "All OK." whose evidence text states the observed exit code and the
command string, zero findings, and status SUCCESS. -/
theorem execute_zero_exit_shape
    (decode : String → Except String SSHConfig) (world : SSHWorld)
    (clock addOneMonth : Nat → Nat) (uuid : Nat → String)
    (conf : Configuration) (val : String) (cfg : SSHConfig) (output : String)
    (hmap : mapIndex conf "yaml" = (val, true))
    (hdec : decode val = .ok cfg)
    (hrun : RunCommand world cfg = .ok (output, 0)) :
    (outcomeObservations (Execute decode world clock addOneMonth uuid conf)).map
        (fun o => o.title) = ["SSH Command Succeeded"] ∧
    (outcomeObservations (Execute decode world clock addOneMonth uuid conf)).map
        (fun o => o.remarks) = ["All OK."] ∧
    (outcomeObservations (Execute decode world clock addOneMonth uuid conf)).map
        (fun o => o.relevantEvidence) =
      [[{ description := "The command returned an exit code of " ++
            toString (0 : Int) ++ " for the command: " ++
            ("ssh -p " ++ (if cfg.port = "" then "22" else cfg.port) ++ " " ++
              cfg.username ++ "@" ++ cfg.host ++ " " ++ cfg.command) }]] ∧
    outcomeFindings (Execute decode world clock addOneMonth uuid conf) = [] ∧
    outcomeStatus (Execute decode world clock addOneMonth uuid conf) =
      some .SUCCESS := by
  simp only [Execute, hmap, hdec, hrun]
  simp [outcomeObservations, outcomeFindings, outcomeStatus]

/-- Witness for C5's amended claim at the spec's scenario with exit code 0. -/
theorem execute_zero_exit_shape_witness :
    (outcomeObservations (Execute decode0 worldOk clockTick addMonth0 uuid0
        confGood)).map (fun o => o.title) = ["SSH Command Succeeded"] ∧
    (outcomeObservations (Execute decode0 worldOk clockTick addMonth0 uuid0
        confGood)).map (fun o => o.remarks) = ["All OK."] ∧
    (outcomeObservations (Execute decode0 worldOk clockTick addMonth0 uuid0
        confGood)).map (fun o => o.relevantEvidence) =
      [[{ description := "The command returned an exit code of " ++
            toString (0 : Int) ++ " for the command: " ++
            ("ssh -p " ++ (if cfgGood.port = "" then "22" else cfgGood.port) ++
              " " ++ cfgGood.username ++ "@" ++ cfgGood.host ++ " " ++
              cfgGood.command) }]] ∧
    outcomeFindings (Execute decode0 worldOk clockTick addMonth0 uuid0
        confGood) = [] ∧
    outcomeStatus (Execute decode0 worldOk clockTick addMonth0 uuid0
        confGood) = some .SUCCESS :=
  execute_zero_exit_shape decode0 worldOk clockTick addMonth0 uuid0 confGood
    "good" cfgGood "nginx active" rfl rfl rfl

/-- Claim C6: `RunCommand` returns a non-zero remote exit status as a normal
`.ok` value (no error); an error value occurs only when dialling, session
creation, or command dispatch itself fails. -/
theorem runCommand_error_classification (world : SSHWorld) (config : SSHConfig) :
    (∀ output status,
        world.dial (config.host ++ ":" ++ config.port) = none →
        world.newSession = none →
        world.combinedOutput config.command = .exitError output status →
        RunCommand world config = .ok (output, status)) ∧
    (∀ e, RunCommand world config = .error e →
        world.dial (config.host ++ ":" ++ config.port) ≠ none ∨
        world.newSession ≠ none ∨
        ∃ m, world.combinedOutput config.command = .otherError m) := by
  constructor
  · intro output status hd hs hc
    simp [RunCommand, hd, hs, hc]
  · intro e he
    simp only [RunCommand] at he
    cases hd : world.dial (config.host ++ ":" ++ config.port) with
    | some m => exact Or.inl (by simp [hd])
    | none =>
      rw [hd] at he
      cases hs : world.newSession with
      | some m => exact Or.inr (Or.inl (by simp [hs]))
      | none =>
        rw [hs] at he
        cases hc : world.combinedOutput config.command with
        | exitError o s => rw [hc] at he; simp at he
        | otherError m => exact Or.inr (Or.inr ⟨m, rfl⟩)
        | ok o => rw [hc] at he; simp at he

/-- Witness for C6: a run where the remote process exits with status 3 is
returned as `.ok` with that status and no error. -/
theorem runCommand_error_classification_witness :
    RunCommand (worldExit 3) cfgGood = .ok ("out", 3) :=
  (runCommand_error_classification (worldExit 3) cfgGood).1 "out" 3 rfl rfl rfl

/-- Claim C7 counterexample: `Collected` and `Expires` come from two separate
`time.Now()` calls; under a clock that advances between them the produced
observation's expiry is one month after the LATER sample, so it does not
equal the collected instant plus one month. -/
theorem expires_uses_later_clock_sample :
    (outcomeObservations (Execute decode0 worldOk clockTick addMonth0 uuid0
        confGood)).map (fun o => decide (o.expires = addMonth0 o.collected)) =
      [false] :=
  rfl

/-- Claim C7 amended: the expiry is one month after the clock sample taken
immediately after `Collected`; whenever the clock does not advance between
the two samples (clock 2 = clock 1), every observation `Execute` produces —
on the success branch and on the failure branch alike — has
`expires = addOneMonth collected`. -/
theorem expires_month_after_adjacent_sample
    (decode : String → Except String SSHConfig) (world : SSHWorld)
    (clock addOneMonth : Nat → Nat) (uuid : Nat → String)
    (conf : Configuration) (val : String) (cfg : SSHConfig)
    (output : String) (code : Int)
    (hmap : mapIndex conf "yaml" = (val, true))
    (hdec : decode val = .ok cfg)
    (hrun : RunCommand world cfg = .ok (output, code))
    (hclock : clock 2 = clock 1) :
    (outcomeObservations (Execute decode world clock addOneMonth uuid conf)).map
        (fun o => o.expires) =
      (outcomeObservations (Execute decode world clock addOneMonth uuid conf)).map
        (fun o => addOneMonth o.collected) := by
  simp only [Execute, hmap, hdec, hrun]
  by_cases hc : code ≠ 0 <;> simp [hc, outcomeObservations, hclock]

/-- Witness for C7's amended claim under a clock that is constant across the
two adjacent samples. -/
theorem expires_month_after_adjacent_sample_witness :
    (outcomeObservations (Execute decode0 worldOk clockConst addMonth0 uuid0
        confGood)).map (fun o => o.expires) =
      (outcomeObservations (Execute decode0 worldOk clockConst addMonth0 uuid0
        confGood)).map (fun o => addMonth0 o.collected) :=
  expires_month_after_adjacent_sample decode0 worldOk clockConst addMonth0
    uuid0 confGood "good" cfgGood "nginx active" 0 rfl rfl rfl rfl

/-- Claim C8: the subject id `Evaluate` produces is a deterministic function
of username, host, port and command alone: any two calls whose decoded
configurations agree on those four fields (the password and the rest of the
raw map may differ) yield the same subject ids — in particular two calls
with the identical configuration do. -/
theorem subject_id_depends_only_on_four_fields
    (da db : String → Except String SSHConfig) (ca cb : Configuration)
    (va vb : String) (fa fb : SSHConfig)
    (hma : mapIndex ca "yaml" = (va, true)) (hda : da va = .ok fa)
    (hmb : mapIndex cb "yaml" = (vb, true)) (hdb : db vb = .ok fb)
    (hu : fa.username = fb.username) (hh : fa.host = fb.host)
    (hp : fa.port = fb.port) (hc : fa.command = fb.command) :
    subjectIds (Evaluate da ca) = subjectIds (Evaluate db cb) := by
  simp [Evaluate, hma, hda, hmb, hdb, subjectIds, hu, hh, hp, hc]

/-- Witness for C8: two configurations identical up to the password yield the
same subject id. -/
theorem subject_id_depends_only_on_four_fields_witness :
    subjectIds (Evaluate decode0 confGood) =
      subjectIds (Evaluate decode0 [("yaml", "goodpw2")]) :=
  subject_id_depends_only_on_four_fields decode0 decode0 confGood
    [("yaml", "goodpw2")] "good" "goodpw2" cfgGood
    { cfgGood with password := "other" } rfl rfl rfl rfl rfl rfl rfl rfl

/-- Claim C9: although `Evaluate` decodes before checking the comma-ok flag
and `Execute` checks the flag before decoding, the two paths classify
configuration errors identically — given that the decoder accepts the empty
string (as `yaml.Unmarshal` of an absent key's zero value does), each returns
the missing-key error exactly when the other does and the decode error
exactly when the other does. -/
theorem config_error_paths_equivalent
    (decode : String → Except String SSHConfig) (world : SSHWorld)
    (clock addOneMonth : Nat → Nat) (uuid : Nat → String)
    (conf : Configuration) (c : SSHConfig)
    (hempty : decode "" = .ok c) :
    evaluateErr (Evaluate decode conf) =
      executeErr (Execute decode world clock addOneMonth uuid conf) := by
  cases hm : mapIndex conf "yaml" with
  | mk val ok =>
    cases ok with
    | false =>
      have hval : val = "" := by
        have h2 : (mapIndex conf "yaml").2 = false := by rw [hm]
        have h1 := mapIndex_absent conf "yaml" h2
        rw [hm] at h1
        exact h1
      subst hval
      simp [Evaluate, Execute, hm, hempty, evaluateErr, executeErr]
    | true =>
      cases hd : decode val with
      | error e => simp [Evaluate, Execute, hm, hd, evaluateErr, executeErr]
      | ok cfg =>
        simp only [Evaluate, Execute, hm, hd]
        cases hr : RunCommand world cfg with
        | error e => simp [evaluateErr, executeErr]
        | ok p =>
          obtain ⟨o, code⟩ := p
          by_cases hc : code ≠ 0 <;> simp [hc, evaluateErr, executeErr]

/-- Witness for C9 at a configuration map with no "yaml" key: both paths
report the missing-key error. -/
theorem config_error_paths_equivalent_witness :
    evaluateErr (Evaluate decode0 []) =
      executeErr (Execute decode0 worldOk clockTick addMonth0 uuid0 []) :=
  config_error_paths_equivalent decode0 worldOk clockTick addMonth0 uuid0 []
    { username := "", password := "", host := "", command := "", port := "" }
    rfl
